import Mathlib

/-!
Shallow embedding of the two pipeline variants of the phone_tracker
repository (`src/phoneinfo.py`, the argparse variant, and `src/main.py`,
the interactive menu variant).

Python strings are embedded as `List Char`; Python dicts returned by the
pipeline functions as association lists in insertion order; the external
libraries (phonenumbers, opencage, folium, datetime) as an `Env` record of
pure functions supplied per run.  The pipeline functions additionally
return an event trace recording the phone-number parse call, the geocoding
network call (with the credential used) and every file write, so that
temporal claims (nothing runs before the credential check; a map file is
written exactly when the aggregate has a `map_file` key) become statements
about the trace.
-/

namespace PhoneTracker

/-- Python `str` as a list of characters. -/
abbrev Str := List Char

/-- A wall-clock timestamp as produced by `datetime.now()`. -/
structure Timestamp where
  year : Nat
  month : Nat
  day : Nat
  hour : Nat
  minute : Nat
  second : Nat
deriving DecidableEq

/-- The decimal digit character for `n % 10`. -/
def digitChar (n : Nat) : Char := Char.ofNat (48 + n % 10)

/-- Two-digit zero-padded decimal rendering, as strftime `%m`, `%d`, `%H`,
`%M`, `%S` produce for in-range values. -/
def pad2 (n : Nat) : Str := [digitChar (n / 10), digitChar n]

/-- Four-digit zero-padded decimal rendering, as strftime `%Y` produces for
years up to 9999. -/
def pad4 (n : Nat) : Str :=
  [digitChar (n / 1000), digitChar (n / 100), digitChar (n / 10), digitChar n]

/-- strftime `%Y%m%d`. -/
def dateStr (t : Timestamp) : Str := pad4 t.year ++ pad2 t.month ++ pad2 t.day

/-- strftime `%H%M%S`. -/
def timeStr (t : Timestamp) : Str := pad2 t.hour ++ pad2 t.minute ++ pad2 t.second

/-- strftime `%Y%m%d_%H%M%S`, the timestamp embedded in map filenames. -/
def compactTs (t : Timestamp) : Str := dateStr t ++ "_".data ++ timeStr t

/-- strftime `%Y-%m-%d %H:%M:%S`, the human-readable timestamp. -/
def humanTs (t : Timestamp) : Str :=
  pad4 t.year ++ "-".data ++ pad2 t.month ++ "-".data ++ pad2 t.day ++ " ".data ++
    pad2 t.hour ++ ":".data ++ pad2 t.minute ++ ":".data ++ pad2 t.second

/-- `datetime.now().isoformat()` (to second granularity). -/
def isoTs (t : Timestamp) : Str :=
  pad4 t.year ++ "-".data ++ pad2 t.month ++ "-".data ++ pad2 t.day ++ "T".data ++
    pad2 t.hour ++ ":".data ++ pad2 t.minute ++ ":".data ++ pad2 t.second

/-- Map filename of the argparse variant: `phone_map_<ts>.html`
(src/phoneinfo.py line 128). -/
def phone_map_filename (t : Timestamp) : Str :=
  "phone_map_".data ++ compactTs t ++ ".html".data

/-- Map filename of the menu variant: `location_<ts>.html`
(src/main.py line 180). -/
def location_filename (t : Timestamp) : Str :=
  "location_".data ++ compactTs t ++ ".html".data

/-- A Python value stored in a result dict: a string or a coordinate number.
Coordinates are carried through unmodified by the code, so they are embedded
as exact rationals. -/
inductive PyVal where
  | s (v : Str)
  | n (v : Rat)
deriving DecidableEq

/-- A Python dict literal as an association list in insertion order. -/
abbrev Dict := List (String × PyVal)

/-- Key lookup in a result dict (`d[k]` / `k in d`). -/
def dlookup (k : String) : Dict → Option PyVal
  | [] => none
  | (k', v) :: rest => if k = k' then some v else dlookup k rest

/-- The structured number produced by `phonenumbers.parse`. -/
structure ParsedNumber where
  country_code : Nat
  national_number : Nat
deriving DecidableEq

/-- A latitude/longitude pair as found in a geocoding result's `geometry`. -/
structure Coord where
  lat : Rat
  lng : Rat
deriving DecidableEq

/-- The external world of one run: the phonenumbers library calls, the
OpenCage geocoding call (taking the api key and the query, returning a
result list or raising), and the wall clock. -/
structure Env where
  parse : Str → Except Str ParsedNumber
  is_valid_number : ParsedNumber → Bool
  description_for_number : ParsedNumber → Str
  name_for_number : ParsedNumber → Str
  number_type : ParsedNumber → Nat
  geocode : Str → Str → Except Str (List Coord)
  now : Timestamp

/-- Observable pipeline effects, in order of occurrence. -/
inductive Event where
  | parseCall
  | geocodeCall (key : Str)
  | fileWrite (file : Str)
deriving DecidableEq

/-- The files written during a run, extracted from its trace. -/
def writtenFiles (evs : List Event) : List Str :=
  evs.filterMap fun e =>
    match e with
    | .fileWrite f => some f
    | _ => none

/-- Python `x or default` for strings: the empty string is falsy. -/
def orDefault (s d : Str) : Str := if s.isEmpty then d else s

/-- Python `s.startswith('+')`. -/
def startsWithPlus (s : Str) : Bool :=
  match s with
  | [] => false
  | c :: _ => c == '+'

/-- The `+`-prepending normalization both variants apply before parsing
(src/main.py lines 282-284, src/phoneinfo.py lines 194-195). -/
def normalizeNumber (s : Str) : Str :=
  if startsWithPlus s then s else '+' :: s

/-- Python `a or b` where `a` is an optional string (argparse value or
`os.getenv` result): `None` and the empty string are falsy. -/
def pyOr (a b : Option Str) : Option Str :=
  match a with
  | none => b
  | some s => if s.isEmpty then b else some s

/-- Python `s.strip()` (whitespace from both ends). -/
def pyStrip (s : Str) : Str :=
  ((s.dropWhile Char.isWhitespace).reverse.dropWhile Char.isWhitespace).reverse

/-- The `type_map.get(number_type, "Unknown")` table of src/phoneinfo.py
lines 69-83. -/
def typeMapGet (n : Nat) : Str :=
  if n = 0 then "Fixed Line".data
  else if n = 1 then "Mobile".data
  else if n = 2 then "Fixed Line or Mobile".data
  else if n = 3 then "Toll Free".data
  else if n = 4 then "Premium Rate".data
  else if n = 5 then "Shared Cost".data
  else if n = 6 then "VoIP".data
  else if n = 7 then "Personal Number".data
  else if n = 8 then "Pager".data
  else if n = 9 then "UAN".data
  else if n = 10 then "Voicemail".data
  else "Unknown".data

/-- Outcome of `get_phone_info`: either `sys.exit(1)` (parse failure or
invalid number) or a returned result dict. -/
inductive PiCallOutcome where
  | exit1
  | ok (d : Dict)
deriving DecidableEq

/-- The dict carried by a `PiCallOutcome` (empty when the call exited). -/
def resultDict : PiCallOutcome → Dict
  | .exit1 => []
  | .ok d => d

/-- src/phoneinfo.py `get_phone_info(phone_str, api_key)` (lines 49-163):
parse, exit 1 on parse failure or invalid number; resolve region and
carrier with `or`-defaults, classify the type; geocode inside try/except
with `lat, lng = None, None` kept on failure or empty results; build the
result dict; when both coordinates are set, extend it with latitude,
longitude and the saved map's filename. -/
def get_phone_info (env : Env) (phone_str api_key : Str) : PiCallOutcome × List Event :=
  match env.parse phone_str with
  | .error _ => (.exit1, [.parseCall])
  | .ok parsed =>
    if !env.is_valid_number parsed then (.exit1, [.parseCall])
    else
      let location := orDefault (env.description_for_number parsed) "Unknown location".data
      let carrier_name := orDefault (env.name_for_number parsed) "Unknown carrier".data
      let phone_type := typeMapGet (env.number_type parsed)
      let coord : Option Coord :=
        match env.geocode api_key location with
        | .error _ => none
        | .ok results => results.head?
      let base : Dict :=
        [("number", .s phone_str), ("location", .s location),
         ("carrier", .s carrier_name), ("type", .s phone_type),
         ("timestamp", .s (humanTs env.now))]
      match coord with
      | none => (.ok base, [.parseCall, .geocodeCall api_key])
      | some c =>
        let map_file := phone_map_filename env.now
        (.ok (base ++ [("latitude", .n c.lat), ("longitude", .n c.lng),
                       ("map_file", .s map_file)]),
         [.parseCall, .geocodeCall api_key, .fileWrite map_file])

/-- src/main.py `get_phone_location(phone_number, api_key)` (lines 84-211):
everything inside one try; parse failures and any other exception are
caught and turned into error dicts; an invalid number returns an error
dict; zero geocoding results return an error dict that still carries the
resolved location and carrier; otherwise the first result's coordinates
are used, a map is saved, and the full dict is returned. -/
def get_phone_location (env : Env) (phone_number api_key : Str) : Dict × List Event :=
  match env.parse phone_number with
  | .error e => ([("error", .s ("Error parsing number: ".data ++ e))], [.parseCall])
  | .ok parsed =>
    if !env.is_valid_number parsed then
      ([("error", .s "Invalid phone number".data)], [.parseCall])
    else
      let location := orDefault (env.description_for_number parsed) "Unknown Location".data
      let carrier_name := orDefault (env.name_for_number parsed) "Unknown Carrier".data
      match env.geocode api_key location with
      | .error e =>
        ([("error", .s ("An error occurred: ".data ++ e))],
         [.parseCall, .geocodeCall api_key])
      | .ok results =>
        match results.head? with
        | none =>
          ([("error", .s "Could not geocode location".data),
            ("location", .s location), ("carrier", .s carrier_name)],
           [.parseCall, .geocodeCall api_key])
        | some c =>
          let filename := location_filename env.now
          ([("location", .s location), ("carrier", .s carrier_name),
            ("latitude", .n c.lat), ("longitude", .n c.lng),
            ("map_file", .s filename), ("timestamp", .s (isoTs env.now))],
           [.parseCall, .geocodeCall api_key, .fileWrite filename])

/-- The argparse inputs of src/phoneinfo.py `main`. -/
structure Args where
  number : Option Str
  apiKey : Option Str
  openFlag : Bool
  quiet : Bool

/-- How a normal (uninterrupted) run of src/phoneinfo.py `main` ends. -/
inductive PiOutcome where
  | usageError
  | credentialError
  | pipelineExit
  | success (d : Dict)

/-- src/phoneinfo.py `main` (lines 166-202): exit 1 when no number was
given, resolve the api key as `args.api_key or os.getenv("OPENCAGE_API_KEY")`
and exit 1 when the result is falsy, prepend `+` when missing, then run
`get_phone_info`. -/
def phoneinfo_main (env : Env) (args : Args) (envKey : Option Str) :
    PiOutcome × List Event :=
  match args.number with
  | none => (.usageError, [])
  | some n0 =>
    if n0.isEmpty then (.usageError, [])
    else
      match pyOr args.apiKey envKey with
      | none => (.credentialError, [])
      | some k =>
        if k.isEmpty then (.credentialError, [])
        else
          match get_phone_info env (normalizeNumber n0) k with
          | (.exit1, evs) => (.pipelineExit, evs)
          | (.ok d, evs) => (.success d, evs)

/-- The process exit code each `PiOutcome` produces. -/
def exitCode : PiOutcome → Nat
  | .success _ => 0
  | _ => 1

/-- What happens around `main()` at top level: a normal run, a
`KeyboardInterrupt`, or an unexpected exception raised by a library call. -/
inductive TopLevel where
  | normal
  | keyboardInterrupt
  | unexpectedError
deriving DecidableEq

/-- The process exit code of src/phoneinfo.py (lines 205-213): interrupt
caught with exit 0, any other exception caught with exit 1, otherwise the
outcome of `main`. -/
def phoneinfo_exit (env : Env) (args : Args) (envKey : Option Str)
    (top : TopLevel) : Nat :=
  match top with
  | .keyboardInterrupt => 0
  | .unexpectedError => 1
  | .normal => exitCode (phoneinfo_main env args envKey).1

/-- The credential hard-coded in src/main.py line 260. -/
def API_KEY : Str := "b18b218fd043493ba212ace3f523a9b1".data

/-- How the menu loop of src/main.py ends: `sys.exit(0)` from menu choice 4,
or an uncaught `EOFError` when `input()` runs out of input. -/
inductive LoopEnd where
  | menuExit
  | eofError
deriving DecidableEq

/-- src/main.py `main` (lines 257-318): the interactive menu loop over the
remaining user inputs.  Choice 1 reads a phone number, rejects an empty
one, otherwise normalizes it and runs `get_phone_location` with the
hard-coded key, then waits for Enter; choices 2 and 3 show a box and wait
for Enter; choice 4 exits with code 0; anything else loops.  Exhausted
input makes `input()` raise `EOFError`, which nothing catches. -/
def main_loop (env : Env) : List Str → LoopEnd × List Event
  | [] => (.eofError, [])
  | choice :: rest =>
    if pyStrip choice = "1".data then
      match rest with
      | [] => (.eofError, [])
      | phone :: rest2 =>
        if (pyStrip phone).isEmpty then
          match rest2 with
          | [] => (.eofError, [])
          | _ :: rest3 => main_loop env rest3
        else
          match get_phone_location env (normalizeNumber (pyStrip phone)) API_KEY with
          | (_, evs) =>
            match rest2 with
            | [] => (.eofError, evs)
            | _ :: rest3 =>
              match main_loop env rest3 with
              | (e, evs2) => (e, evs ++ evs2)
    else if pyStrip choice = "2".data || pyStrip choice = "3".data then
      match rest with
      | [] => (.eofError, [])
      | _ :: rest2 => main_loop env rest2
    else if pyStrip choice = "4".data then (.menuExit, [])
    else main_loop env rest

/-- The process exit code of src/main.py (lines 320-325): interrupt caught
with exit 0; `sys.exit(0)` from the menu gives 0; an uncaught exception
(such as `EOFError`) makes the interpreter exit with 1. -/
def tracker_exit (env : Env) (inputs : List Str) (top : TopLevel) : Nat :=
  match top with
  | .keyboardInterrupt => 0
  | .unexpectedError => 1
  | .normal =>
    match (main_loop env inputs).1 with
    | .menuExit => 0
    | .eofError => 1

/-- A run of the argparse variant succeeds: a non-empty number was given, a
truthy credential was resolved, and the normalized number parses to a valid
number. -/
def piSuccess (env : Env) (args : Args) (envKey : Option Str) : Prop :=
  ∃ n0 k p, args.number = some n0 ∧ n0 ≠ [] ∧
    pyOr args.apiKey envKey = some k ∧ k ≠ [] ∧
    env.parse (normalizeNumber n0) = Except.ok p ∧
    env.is_valid_number p = true

/-- The structured form of the Kenyan test number `+254712345678`. -/
def demoParsed : ParsedNumber := ⟨254, 712345678⟩

/-- The mocked geocoding response of the spec: lat −1.2921, lng 36.8219. -/
def demoCoord : Coord := ⟨-12921/10000, 368219/10000⟩

/-- A concrete external world recognizing exactly `+254712345678`, with the
geocoding behaviour supplied as a parameter. -/
def demoEnvWith (geo : Str → Str → Except Str (List Coord)) : Env where
  parse := fun s =>
    if s = "+254712345678".data then Except.ok demoParsed
    else Except.error "(0) Missing or invalid default region.".data
  is_valid_number := fun p => p == demoParsed
  description_for_number := fun _ => "Kenya".data
  name_for_number := fun _ => "Safaricom".data
  number_type := fun _ => 1
  geocode := geo
  now := ⟨2025, 10, 12, 13, 45, 59⟩

/-- A world whose geocoder answers every query with the mocked response. -/
def demoEnv : Env := demoEnvWith fun _ _ => Except.ok [demoCoord]

/-- A world whose geocoder answers every query with zero results. -/
def demoNoMatchEnv : Env := demoEnvWith fun _ _ => Except.ok []

/-- A world whose geocoder raises on every query. -/
def demoFailEnv : Env := demoEnvWith fun _ _ => Except.error "network unreachable".data

/-- A world in which the carrier lookup returns no data while the region
lookup still succeeds. -/
def demoNoCarrierEnv : Env := { demoEnv with name_for_number := fun _ => [] }

/-! ### Helper lemmas -/

theorem digitChar_isDigit (n : Nat) : (digitChar n).isDigit = true := by
  unfold digitChar
  have h : n % 10 < 10 := Nat.mod_lt _ (by norm_num)
  generalize hnk : n % 10 = k at h ⊢
  interval_cases k <;> decide

theorem pad2_mem {c : Char} {n : Nat} (h : c ∈ pad2 n) : c.isDigit = true := by
  simp only [pad2, List.mem_cons, List.not_mem_nil, or_false] at h
  rcases h with h | h <;> subst h <;> exact digitChar_isDigit _

theorem pad4_mem {c : Char} {n : Nat} (h : c ∈ pad4 n) : c.isDigit = true := by
  simp only [pad4, List.mem_cons, List.not_mem_nil, or_false] at h
  rcases h with h | h | h | h <;> subst h <;> exact digitChar_isDigit _

theorem pyOr_some {s : Str} (b : Option Str) (h : s ≠ []) : pyOr (some s) b = some s := by
  cases s with
  | nil => exact absurd rfl h
  | cons c cs => rfl

theorem get_phone_info_geocode_key (env : Env) (m key k : Str)
    (h : Event.geocodeCall k ∈ (get_phone_info env m key).2) : k = key := by
  unfold get_phone_info at h
  cases hp : env.parse m with
  | error e => simp [hp] at h
  | ok p =>
    cases hv : env.is_valid_number p with
    | false => simp [hp, hv] at h
    | true =>
      cases hg : env.geocode key
          (orDefault (env.description_for_number p) "Unknown location".data) with
      | error e => simp [hp, hv, hg] at h; exact h
      | ok results =>
        cases results with
        | nil => simp [hp, hv, hg] at h; exact h
        | cons c cs => simp [hp, hv, hg] at h; exact h

theorem orDefault_nil (d : Str) : orDefault [] d = d := rfl

theorem ne_nil_of_isEmpty_false {s : Str} (h : s.isEmpty = false) : s ≠ [] := by
  cases s with
  | nil => simp at h
  | cons c cs => exact List.cons_ne_nil c cs

theorem isEmpty_false_of_ne {s : Str} (h : s ≠ []) : s.isEmpty = false := by
  cases s with
  | nil => exact absurd rfl h
  | cons c cs => rfl

theorem get_phone_info_fst_ok_iff (env : Env) (m k : Str) :
    (get_phone_info env m k).1 ≠ .exit1 ↔
      ∃ p, env.parse m = Except.ok p ∧ env.is_valid_number p = true := by
  cases hp : env.parse m with
  | error e => simp [get_phone_info, hp]
  | ok p =>
    cases hv : env.is_valid_number p with
    | false => simp [get_phone_info, hp, hv]
    | true =>
      cases hg : env.geocode k
          (orDefault (env.description_for_number p) "Unknown location".data) with
      | error e => simp [get_phone_info, hp, hv, hg]
      | ok results =>
        cases results with
        | nil => simp [get_phone_info, hp, hv, hg]
        | cons c cs => simp [get_phone_info, hp, hv, hg]

theorem info_keys_iff (env : Env) (n k : Str) :
    ((dlookup "latitude" (resultDict (get_phone_info env n k).1)).isSome
      = (dlookup "longitude" (resultDict (get_phone_info env n k).1)).isSome) ∧
    ((dlookup "longitude" (resultDict (get_phone_info env n k).1)).isSome
      = (dlookup "map_file" (resultDict (get_phone_info env n k).1)).isSome) ∧
    ((dlookup "map_file" (resultDict (get_phone_info env n k).1)).isSome
      = !(writtenFiles (get_phone_info env n k).2).isEmpty) := by
  cases hp : env.parse n with
  | error e => simp [get_phone_info, hp, resultDict, dlookup, writtenFiles]
  | ok p =>
    cases hv : env.is_valid_number p with
    | false => simp [get_phone_info, hp, hv, resultDict, dlookup, writtenFiles]
    | true =>
      cases hg : env.geocode k
          (orDefault (env.description_for_number p) "Unknown location".data) with
      | error e => simp [get_phone_info, hp, hv, hg, resultDict, dlookup, writtenFiles]
      | ok results =>
        cases results with
        | nil => simp [get_phone_info, hp, hv, hg, resultDict, dlookup, writtenFiles]
        | cons c cs => simp [get_phone_info, hp, hv, hg, resultDict, dlookup, writtenFiles]

theorem location_keys_iff (env : Env) (n k : Str) :
    ((dlookup "latitude" (get_phone_location env n k).1).isSome
      = (dlookup "longitude" (get_phone_location env n k).1).isSome) ∧
    ((dlookup "longitude" (get_phone_location env n k).1).isSome
      = (dlookup "map_file" (get_phone_location env n k).1).isSome) ∧
    ((dlookup "map_file" (get_phone_location env n k).1).isSome
      = !(writtenFiles (get_phone_location env n k).2).isEmpty) := by
  cases hp : env.parse n with
  | error e => simp [get_phone_location, hp, dlookup, writtenFiles]
  | ok p =>
    cases hv : env.is_valid_number p with
    | false => simp [get_phone_location, hp, hv, dlookup, writtenFiles]
    | true =>
      cases hg : env.geocode k
          (orDefault (env.description_for_number p) "Unknown Location".data) with
      | error e => simp [get_phone_location, hp, hv, hg, dlookup, writtenFiles]
      | ok results =>
        cases results with
        | nil => simp [get_phone_location, hp, hv, hg, dlookup, writtenFiles]
        | cons c cs => simp [get_phone_location, hp, hv, hg, dlookup, writtenFiles]

theorem phoneinfo_success_iff (env : Env) (args : Args) (envKey : Option Str) :
    exitCode (phoneinfo_main env args envKey).1 = 0 ↔ piSuccess env args envKey := by
  constructor
  · intro h
    cases hn : args.number with
    | none => simp [phoneinfo_main, hn, exitCode] at h
    | some n0 =>
      cases h0 : n0.isEmpty with
      | true => simp [phoneinfo_main, hn, h0, exitCode] at h
      | false =>
        cases hk : pyOr args.apiKey envKey with
        | none => simp [phoneinfo_main, hn, h0, hk, exitCode] at h
        | some k =>
          cases hke : k.isEmpty with
          | true => simp [phoneinfo_main, hn, h0, hk, hke, exitCode] at h
          | false =>
            rcases hgi : get_phone_info env (normalizeNumber n0) k with ⟨o, evs⟩
            cases o with
            | exit1 => simp [phoneinfo_main, hn, h0, hk, hke, hgi, exitCode] at h
            | ok d =>
              have hne : (get_phone_info env (normalizeNumber n0) k).1 ≠ .exit1 := by
                rw [hgi]; simp
              obtain ⟨p, hp, hv⟩ :=
                (get_phone_info_fst_ok_iff env (normalizeNumber n0) k).1 hne
              exact ⟨n0, k, p, hn, ne_nil_of_isEmpty_false h0, hk,
                ne_nil_of_isEmpty_false hke, hp, hv⟩
  · rintro ⟨n0, k, p, hn, hn0, hk, hke, hp, hv⟩
    have h0 : n0.isEmpty = false := isEmpty_false_of_ne hn0
    have hke' : k.isEmpty = false := isEmpty_false_of_ne hke
    rcases hgi : get_phone_info env (normalizeNumber n0) k with ⟨o, evs⟩
    cases o with
    | exit1 =>
      have hne : (get_phone_info env (normalizeNumber n0) k).1 ≠ .exit1 :=
        (get_phone_info_fst_ok_iff env (normalizeNumber n0) k).2 ⟨p, hp, hv⟩
      rw [hgi] at hne
      simp at hne
    | ok d => simp [phoneinfo_main, hn, h0, hk, hke', hgi, exitCode]

/-! ### Claims -/

/-- C5: for every string that does not begin with `+`, both variants
prepend `+` exactly once before parsing; a string already beginning with
`+` is left unchanged, so the normalization is idempotent. -/
theorem plus_prepend_once_idempotent :
    ∀ s : Str,
      (startsWithPlus s = false → normalizeNumber s = '+' :: s) ∧
      (startsWithPlus s = true → normalizeNumber s = s) ∧
      normalizeNumber (normalizeNumber s) = normalizeNumber s := by
  intro s
  refine ⟨fun h => by simp [normalizeNumber, h], fun h => by simp [normalizeNumber, h], ?_⟩
  by_cases h : startsWithPlus s = true
  · simp [normalizeNumber, h]
  · have h' : startsWithPlus s = false := by simpa using h
    have e1 : normalizeNumber s = '+' :: s := by simp [normalizeNumber, h']
    rw [e1]
    simp [normalizeNumber, startsWithPlus]

/-- C5 witness: normalizing `254712345678` prepends exactly one `+`. -/
theorem plus_prepend_once_idempotent_witness :
    normalizeNumber "254712345678".data = '+' :: "254712345678".data :=
  (plus_prepend_once_idempotent "254712345678".data).1 (by decide)

/-- C8: for every in-range timestamp, both variants' map filenames are the
deterministic strings `phone_map_<YYYYMMDD>_<HHMMSS>.html` and
`location_<YYYYMMDD>_<HHMMSS>.html`: a fixed prefix, an underscore, eight
digit characters, an underscore, six digit characters, and `.html`. -/
theorem map_filename_pattern :
    ∀ t : Timestamp, t.year ≤ 9999 → t.month ≤ 12 → t.day ≤ 31 →
      t.hour ≤ 23 → t.minute ≤ 59 → t.second ≤ 59 →
      phone_map_filename t
          = "phone_map_".data ++ dateStr t ++ "_".data ++ timeStr t ++ ".html".data ∧
      location_filename t
          = "location_".data ++ dateStr t ++ "_".data ++ timeStr t ++ ".html".data ∧
      (dateStr t).length = 8 ∧ (timeStr t).length = 6 ∧
      (∀ c ∈ dateStr t, c.isDigit = true) ∧ (∀ c ∈ timeStr t, c.isDigit = true) := by
  intro t _ _ _ _ _ _
  refine ⟨by simp [phone_map_filename, compactTs], by simp [location_filename, compactTs],
    by simp [dateStr, pad4, pad2], by simp [timeStr, pad2], ?_, ?_⟩
  · intro c hc
    simp only [dateStr, List.mem_append] at hc
    rcases hc with (h | h) | h
    · exact pad4_mem h
    · exact pad2_mem h
    · exact pad2_mem h
  · intro c hc
    simp only [timeStr, List.mem_append] at hc
    rcases hc with (h | h) | h <;> exact pad2_mem h

/-- C8 witness: at 2025-10-12 13:45:59 the argparse variant's filename is
`phone_map_20251012_134559.html`, with an 8-digit date part. -/
theorem map_filename_pattern_witness :
    phone_map_filename ⟨2025, 10, 12, 13, 45, 59⟩
        = "phone_map_".data ++ dateStr ⟨2025, 10, 12, 13, 45, 59⟩ ++ "_".data ++
          timeStr ⟨2025, 10, 12, 13, 45, 59⟩ ++ ".html".data ∧
    (dateStr ⟨2025, 10, 12, 13, 45, 59⟩).length = 8 := by
  have h := map_filename_pattern ⟨2025, 10, 12, 13, 45, 59⟩ (by norm_num) (by norm_num)
    (by norm_num) (by norm_num) (by norm_num) (by norm_num)
  exact ⟨h.1, h.2.2.1⟩

/-- C4 counterexample: in the menu variant the aggregate returned when the
geocoder raises is not the aggregate returned when it yields zero results:
the error aggregate drops the location and carrier entries. -/
theorem geocoder_failure_differs_counterexample :
    (get_phone_location demoFailEnv "+254712345678".data "KEY".data).1
      ≠ (get_phone_location demoNoMatchEnv "+254712345678".data "KEY".data).1 := by decide

/-- C4 amended: a geocoding failure is non-fatal in both variants.  In the
argparse variant it is treated exactly like zero results (identical outcome
and trace); in the menu variant the pipeline also continues without
coordinates and without writing a map, but returns an error aggregate that,
unlike the no-match case, lacks the location and carrier entries. -/
theorem geocoder_failure_amended :
    (∀ (env : Env) (msg n k : Str),
      get_phone_info { env with geocode := fun _ _ => Except.error msg } n k
        = get_phone_info { env with geocode := fun _ _ => Except.ok [] } n k) ∧
    (∀ (env : Env) (msg n k : Str),
      dlookup "latitude"
          (get_phone_location { env with geocode := fun _ _ => Except.error msg } n k).1 = none ∧
      dlookup "longitude"
          (get_phone_location { env with geocode := fun _ _ => Except.error msg } n k).1 = none ∧
      dlookup "map_file"
          (get_phone_location { env with geocode := fun _ _ => Except.error msg } n k).1 = none ∧
      writtenFiles
          (get_phone_location { env with geocode := fun _ _ => Except.error msg } n k).2 = []) := by
  constructor
  · intro env msg n k
    cases hp : env.parse n with
    | error e => simp [get_phone_info, hp]
    | ok p =>
      cases hv : env.is_valid_number p with
      | false => simp [get_phone_info, hp, hv]
      | true => simp [get_phone_info, hp, hv]
  · intro env msg n k
    cases hp : env.parse n with
    | error e => simp [get_phone_location, hp, dlookup, writtenFiles]
    | ok p =>
      cases hv : env.is_valid_number p with
      | false => simp [get_phone_location, hp, hv, dlookup, writtenFiles]
      | true => simp [get_phone_location, hp, hv, dlookup, writtenFiles]

/-- C10 counterexample: with the command-line key set to the empty string
and the environment variable set to `ENVKEY`, the geocoding call of the
argparse variant uses `ENVKEY`, not the command-line value. -/
theorem cli_key_precedence_counterexample :
    Event.geocodeCall "ENVKEY".data ∈
        (phoneinfo_main demoEnv ⟨some "+254712345678".data, some [], false, false⟩
          (some "ENVKEY".data)).2 ∧
      Event.geocodeCall [] ∉
        (phoneinfo_main demoEnv ⟨some "+254712345678".data, some [], false, false⟩
          (some "ENVKEY".data)).2 := by decide

/-- C10 amended: when the command-line API key is set to a non-empty
string, it takes precedence: the run is identical to one with no
environment key at all, and every geocoding call uses the command-line
value. -/
theorem cli_key_precedence_amended :
    ∀ (env : Env) (args : Args) (envKey : Option Str) (s : Str),
      args.apiKey = some s → s ≠ [] →
      phoneinfo_main env args envKey = phoneinfo_main env args none ∧
      ∀ k, Event.geocodeCall k ∈ (phoneinfo_main env args envKey).2 → k = s := by
  intro env args envKey s hk hs
  have hor : ∀ b, pyOr args.apiKey b = some s := fun b => hk ▸ pyOr_some b hs
  constructor
  · unfold phoneinfo_main
    rw [hor, hor]
  · intro k hmem
    unfold phoneinfo_main at hmem
    cases hn : args.number with
    | none => simp [hn] at hmem
    | some n0 =>
      rw [hn] at hmem
      by_cases h0 : n0.isEmpty
      · simp [h0] at hmem
      · rw [hor envKey] at hmem
        simp only [h0, Bool.false_eq_true, if_false] at hmem
        have hse : s.isEmpty = false := by
          cases s with
          | nil => exact absurd rfl hs
          | cons c cs => rfl
        rw [hse] at hmem
        simp only [Bool.false_eq_true, if_false] at hmem
        rcases hgi : get_phone_info env (normalizeNumber n0) s with ⟨o, evs⟩
        rw [hgi] at hmem
        cases o with
        | exit1 =>
          apply get_phone_info_geocode_key env (normalizeNumber n0) s k
          rw [hgi]
          simpa using hmem
        | ok d =>
          apply get_phone_info_geocode_key env (normalizeNumber n0) s k
          rw [hgi]
          simpa using hmem

/-- C10 amended witness: with a non-empty command-line key `CLIKEY`, the
presence of the environment key `ENVKEY` does not change the run. -/
theorem cli_key_precedence_amended_witness :
    phoneinfo_main demoEnv ⟨some "+254712345678".data, some "CLIKEY".data, false, false⟩
        (some "ENVKEY".data)
      = phoneinfo_main demoEnv ⟨some "+254712345678".data, some "CLIKEY".data, false, false⟩
        none :=
  (cli_key_precedence_amended demoEnv
    ⟨some "+254712345678".data, some "CLIKEY".data, false, false⟩
    (some "ENVKEY".data) "CLIKEY".data rfl (by decide)).1

/-- C1: in both variants the process exit code is always 0 or 1; it is 0
exactly on a graceful user interrupt or a successful run (for the menu
variant, a run ended through the exit menu choice), and therefore 1 on
every run that ends with an unhandled error, an invalid or unparseable
number, or a missing credential. -/
theorem exit_code_discipline :
    (∀ (env : Env) (args : Args) (envKey : Option Str) (top : TopLevel),
      (phoneinfo_exit env args envKey top = 0 ∨ phoneinfo_exit env args envKey top = 1) ∧
      (phoneinfo_exit env args envKey top = 0 ↔
        top = .keyboardInterrupt ∨ (top = .normal ∧ piSuccess env args envKey))) ∧
    (∀ (env : Env) (inputs : List Str) (top : TopLevel),
      (tracker_exit env inputs top = 0 ∨ tracker_exit env inputs top = 1) ∧
      (tracker_exit env inputs top = 0 ↔
        top = .keyboardInterrupt ∨
          (top = .normal ∧ (main_loop env inputs).1 = .menuExit))) := by
  constructor
  · intro env args envKey top
    cases top with
    | keyboardInterrupt => simp [phoneinfo_exit]
    | unexpectedError => simp [phoneinfo_exit]
    | normal =>
      refine ⟨?_, ?_⟩
      · rcases h : (phoneinfo_main env args envKey).1 with _ | _ | _ | d <;>
          simp [phoneinfo_exit, h, exitCode]
      · have hs := phoneinfo_success_iff env args envKey
        simpa [phoneinfo_exit] using hs
  · intro env inputs top
    cases top with
    | keyboardInterrupt => simp [tracker_exit]
    | unexpectedError => simp [tracker_exit]
    | normal =>
      rcases h : (main_loop env inputs).1 with _ | _ <;> simp [tracker_exit, h]

/-- C2: whenever the resolved credential is falsy (absent or empty), the
argparse variant ends with exit code 1 and its trace is empty: no parse
call, no network call, no file write happened.  The menu variant's
credential is a hard-coded non-empty constant, so it never runs without
one. -/
theorem missing_credential_short_circuits :
    (∀ (env : Env) (args : Args) (envKey : Option Str),
      (pyOr args.apiKey envKey = none ∨ pyOr args.apiKey envKey = some []) →
      exitCode (phoneinfo_main env args envKey).1 = 1 ∧
      (phoneinfo_main env args envKey).2 = []) ∧
    API_KEY ≠ [] := by
  refine ⟨?_, by decide⟩
  intro env args envKey hk
  cases hn : args.number with
  | none => simp [phoneinfo_main, hn, exitCode]
  | some n0 =>
    cases h0 : n0.isEmpty with
    | true => simp [phoneinfo_main, hn, h0, exitCode]
    | false =>
      rcases hk with hk | hk <;> simp [phoneinfo_main, hn, h0, hk, exitCode]

/-- C2 witness: with no flag and no environment variable the run exits 1
having performed no pipeline step. -/
theorem missing_credential_short_circuits_witness :
    exitCode (phoneinfo_main demoEnv ⟨some "+254712345678".data, none, false, false⟩ none).1
        = 1 ∧
    (phoneinfo_main demoEnv ⟨some "+254712345678".data, none, false, false⟩ none).2 = [] :=
  missing_credential_short_circuits.1 demoEnv
    ⟨some "+254712345678".data, none, false, false⟩ none (Or.inl rfl)

/-- C3: when the geocoder returns zero results for every query, both
variants return an aggregate with no latitude, longitude or map-file
entry, write no file, and keep the location and carrier entries at the
values the resolver produced. -/
theorem geocoder_no_match_skips_map :
    ∀ (env : Env) (n k : Str) (p : ParsedNumber),
      env.parse n = Except.ok p → env.is_valid_number p = true →
      (∀ key q, env.geocode key q = Except.ok []) →
      (dlookup "latitude" (resultDict (get_phone_info env n k).1) = none ∧
       dlookup "longitude" (resultDict (get_phone_info env n k).1) = none ∧
       dlookup "map_file" (resultDict (get_phone_info env n k).1) = none ∧
       dlookup "location" (resultDict (get_phone_info env n k).1)
         = some (.s (orDefault (env.description_for_number p) "Unknown location".data)) ∧
       dlookup "carrier" (resultDict (get_phone_info env n k).1)
         = some (.s (orDefault (env.name_for_number p) "Unknown carrier".data)) ∧
       writtenFiles (get_phone_info env n k).2 = []) ∧
      (dlookup "latitude" (get_phone_location env n k).1 = none ∧
       dlookup "longitude" (get_phone_location env n k).1 = none ∧
       dlookup "map_file" (get_phone_location env n k).1 = none ∧
       dlookup "location" (get_phone_location env n k).1
         = some (.s (orDefault (env.description_for_number p) "Unknown Location".data)) ∧
       dlookup "carrier" (get_phone_location env n k).1
         = some (.s (orDefault (env.name_for_number p) "Unknown Carrier".data)) ∧
       writtenFiles (get_phone_location env n k).2 = []) := by
  intro env n k p hp hv hg
  constructor
  · simp [get_phone_info, hp, hv, hg, resultDict, dlookup, writtenFiles]
  · simp [get_phone_location, hp, hv, hg, dlookup, writtenFiles]

/-- C3 witness: in the zero-result world the aggregates omit the map file
and keep the carrier. -/
theorem geocoder_no_match_skips_map_witness :
    dlookup "map_file"
        (resultDict (get_phone_info demoNoMatchEnv "+254712345678".data "KEY".data).1)
        = none ∧
    dlookup "carrier" (get_phone_location demoNoMatchEnv "+254712345678".data "KEY".data).1
        = some (.s (orDefault (demoNoMatchEnv.name_for_number demoParsed)
            "Unknown Carrier".data)) := by
  have h := geocoder_no_match_skips_map demoNoMatchEnv "+254712345678".data "KEY".data
    demoParsed rfl (by decide) (fun _ _ => rfl)
  exact ⟨h.1.2.2.1, h.2.2.2.2.2.1⟩

/-- C6: when the geocoder returns at least one result, both variants place
exactly the first result's coordinate pair, unmodified, in the aggregate's
latitude and longitude entries. -/
theorem first_result_coordinates_used :
    ∀ (env : Env) (n k : Str) (p : ParsedNumber) (c : Coord) (rest : List Coord),
      env.parse n = Except.ok p → env.is_valid_number p = true →
      (∀ key q, env.geocode key q = Except.ok (c :: rest)) →
      dlookup "latitude" (resultDict (get_phone_info env n k).1) = some (.n c.lat) ∧
      dlookup "longitude" (resultDict (get_phone_info env n k).1) = some (.n c.lng) ∧
      dlookup "latitude" (get_phone_location env n k).1 = some (.n c.lat) ∧
      dlookup "longitude" (get_phone_location env n k).1 = some (.n c.lng) := by
  intro env n k p c rest hp hv hg
  refine ⟨?_, ?_, ?_, ?_⟩ <;>
    simp [get_phone_info, get_phone_location, hp, hv, hg, resultDict, dlookup]

/-- C6 witness: with the mocked response lat −1.2921, lng 36.8219 for
`+254712345678`, the aggregates carry exactly those values. -/
theorem first_result_coordinates_used_witness :
    dlookup "latitude" (resultDict (get_phone_info demoEnv "+254712345678".data "KEY".data).1)
        = some (.n (-12921/10000)) ∧
    dlookup "longitude" (get_phone_location demoEnv "+254712345678".data "KEY".data).1
        = some (.n (368219/10000)) := by
  have h := first_result_coordinates_used demoEnv "+254712345678".data "KEY".data demoParsed
    demoCoord [] rfl (by decide) (fun _ _ => rfl)
  exact ⟨h.1, h.2.2.2⟩

/-- C7: for every parsed valid number, whichever of the region and carrier
lookups returns no data — either one alone or both — is substituted by its
explicit Unknown placeholder and the pipeline continues: the argparse
variant still returns an aggregate (it does not exit), and as long as the
geocoder call itself does not raise, the aggregate of either variant
carries the placeholder for each missing field. -/
theorem unknown_placeholder_substitution :
    ∀ (env : Env) (n k : Str) (p : ParsedNumber),
      env.parse n = Except.ok p → env.is_valid_number p = true →
      (∀ key q, ∃ rs, env.geocode key q = Except.ok rs) →
      (get_phone_info env n k).1 ≠ .exit1 ∧
      (env.description_for_number p = [] →
        dlookup "location" (resultDict (get_phone_info env n k).1)
            = some (.s "Unknown location".data) ∧
        dlookup "location" (get_phone_location env n k).1
            = some (.s "Unknown Location".data)) ∧
      (env.name_for_number p = [] →
        dlookup "carrier" (resultDict (get_phone_info env n k).1)
            = some (.s "Unknown carrier".data) ∧
        dlookup "carrier" (get_phone_location env n k).1
            = some (.s "Unknown Carrier".data)) := by
  intro env n k p hp hv hgeo
  refine ⟨(get_phone_info_fst_ok_iff env n k).2 ⟨p, hp, hv⟩, ?_, ?_⟩
  · intro hd
    obtain ⟨rs1, hg1⟩ := hgeo k "Unknown location".data
    obtain ⟨rs2, hg2⟩ := hgeo k "Unknown Location".data
    constructor
    · cases rs1 with
      | nil => simp [get_phone_info, hp, hv, hd, orDefault_nil, hg1, resultDict, dlookup]
      | cons c cs => simp [get_phone_info, hp, hv, hd, orDefault_nil, hg1, resultDict, dlookup]
    · cases rs2 with
      | nil => simp [get_phone_location, hp, hv, hd, orDefault_nil, hg2, dlookup]
      | cons c cs => simp [get_phone_location, hp, hv, hd, orDefault_nil, hg2, dlookup]
  · intro hc
    obtain ⟨rs1, hg1⟩ :=
      hgeo k (orDefault (env.description_for_number p) "Unknown location".data)
    obtain ⟨rs2, hg2⟩ :=
      hgeo k (orDefault (env.description_for_number p) "Unknown Location".data)
    constructor
    · cases rs1 with
      | nil => simp [get_phone_info, hp, hv, hc, orDefault_nil, hg1, resultDict, dlookup]
      | cons c cs => simp [get_phone_info, hp, hv, hc, orDefault_nil, hg1, resultDict, dlookup]
    · cases rs2 with
      | nil => simp [get_phone_location, hp, hv, hc, orDefault_nil, hg2, dlookup]
      | cons c cs => simp [get_phone_location, hp, hv, hc, orDefault_nil, hg2, dlookup]

/-- C7 witness: in a world where only the carrier lookup has no data, the
argparse aggregate's carrier entry is the Unknown placeholder. -/
theorem unknown_placeholder_substitution_witness :
    dlookup "carrier"
        (resultDict (get_phone_info demoNoCarrierEnv "+254712345678".data "KEY".data).1)
      = some (.s "Unknown carrier".data) := by
  have h := unknown_placeholder_substitution demoNoCarrierEnv "+254712345678".data "KEY".data
    demoParsed rfl (by decide) (fun _ _ => ⟨[demoCoord], rfl⟩)
  exact (h.2.2 rfl).1

/-- C9: in every aggregate either variant returns, the latitude, longitude
and map-file entries are present all together or not at all, and a file is
written during the call exactly when the aggregate has a map-file entry. -/
theorem coordinate_keys_iff_map_written :
    ∀ (env : Env) (n k : Str),
      ((dlookup "latitude" (resultDict (get_phone_info env n k).1)).isSome
        = (dlookup "longitude" (resultDict (get_phone_info env n k).1)).isSome) ∧
      ((dlookup "longitude" (resultDict (get_phone_info env n k).1)).isSome
        = (dlookup "map_file" (resultDict (get_phone_info env n k).1)).isSome) ∧
      ((dlookup "map_file" (resultDict (get_phone_info env n k).1)).isSome
        = !(writtenFiles (get_phone_info env n k).2).isEmpty) ∧
      ((dlookup "latitude" (get_phone_location env n k).1).isSome
        = (dlookup "longitude" (get_phone_location env n k).1).isSome) ∧
      ((dlookup "longitude" (get_phone_location env n k).1).isSome
        = (dlookup "map_file" (get_phone_location env n k).1).isSome) ∧
      ((dlookup "map_file" (get_phone_location env n k).1).isSome
        = !(writtenFiles (get_phone_location env n k).2).isEmpty) := by
  intro env n k
  obtain ⟨h1, h2, h3⟩ := info_keys_iff env n k
  obtain ⟨h4, h5, h6⟩ := location_keys_iff env n k
  exact ⟨h1, h2, h3, h4, h5, h6⟩

end PhoneTracker
